import Mathlib

/-!
Shallow embedding of `tools/generate_emoji.py` (MeshBerry emoji pipeline):
the static configuration `EMOJI_DATA`, the cache, the downloader, the
RGB565 quantizer, the placeholder generator, and the artifact emission of
`main`.  External effects (network, PIL image decoding) are modelled as
explicit oracle parameters; the filesystem cache is a map from file names
to byte strings.
-/

namespace MeshBerry

/-- Raw bytes (a Python `bytes` value) as a list of byte values. -/
abbrev Bytes := List Nat

def EMOJI_DATA : List (String × List (Nat × String)) := [
  ("FACES", [
    (0x1F600, "grin"), (0x1F603, "smiley"), (0x1F604, "smile"), (0x1F601, "grin_sweat"),
    (0x1F606, "laugh"), (0x1F605, "sweat_smile"), (0x1F923, "rofl"), (0x1F602, "joy"),
    (0x1F642, "slight_smile"), (0x1F643, "upside_down"), (0x1F609, "wink"), (0x1F60A, "blush"),
    (0x1F607, "innocent"), (0x1F970, "smiling_hearts"), (0x1F60D, "heart_eyes"), (0x1F929, "star_struck"),
    (0x1F618, "kiss"), (0x1F617, "kissing"), (0x263A, "relaxed"), (0x1F61A, "kiss_closed"),
    (0x1F619, "kiss_smiling"), (0x1F972, "smiling_tear"), (0x1F60B, "yum"), (0x1F61B, "tongue_out"),
    (0x1F61C, "wink_tongue"), (0x1F92A, "zany"), (0x1F61D, "squint_tongue"), (0x1F911, "money_mouth"),
    (0x1F917, "hugs"), (0x1F92D, "hand_mouth"), (0x1F92B, "shushing"), (0x1F914, "thinking"),
    (0x1F910, "zipper"), (0x1F928, "raised_brow"), (0x1F610, "neutral"), (0x1F611, "expressionless"),
    (0x1F636, "no_mouth"), (0x1F60F, "smirk"), (0x1F612, "unamused"), (0x1F644, "eye_roll"),
    (0x1F62C, "grimace"), (0x1F925, "lying"), (0x1F60C, "relieved"), (0x1F614, "pensive"),
    (0x1F62A, "sleepy"), (0x1F924, "drooling"), (0x1F634, "sleeping"), (0x1F637, "mask"),
    (0x1F912, "thermometer"), (0x1F915, "bandage"), (0x1F922, "nauseated"), (0x1F92E, "vomiting"),
    (0x1F927, "sneezing"), (0x1F975, "hot"), (0x1F976, "cold"), (0x1F974, "woozy"),
    (0x1F635, "dizzy_face"), (0x1F92F, "exploding"), (0x1F920, "cowboy"), (0x1F973, "party"),
    (0x1F978, "disguised"), (0x1F60E, "sunglasses"), (0x1F913, "nerd"), (0x1F9D0, "monocle"),
    (0x1F615, "confused"), (0x1F61F, "worried"), (0x1F641, "frown"), (0x2639, "sad"),
    (0x1F62E, "open_mouth"), (0x1F62F, "hushed"), (0x1F632, "astonished"), (0x1F633, "flushed"),
    (0x1F97A, "pleading"), (0x1F626, "frowning"), (0x1F627, "anguished"), (0x1F628, "fearful"),
    (0x1F630, "anxious"), (0x1F625, "disappointed"), (0x1F622, "cry"), (0x1F62D, "sob"),
    (0x1F631, "scream"), (0x1F616, "confounded"), (0x1F623, "persevere"), (0x1F61E, "disappointed2"),
    (0x1F613, "sweat"), (0x1F629, "weary"), (0x1F62B, "tired"), (0x1F971, "yawning"),
    (0x1F624, "triumph"), (0x1F621, "rage"), (0x1F620, "angry"), (0x1F92C, "cursing"),
    (0x1F608, "smiling_imp"), (0x1F47F, "imp"), (0x1F480, "skull"), (0x2620, "skull_bones"),
    (0x1F4A9, "poop"), (0x1F921, "clown"), (0x1F479, "ogre"), (0x1F47A, "goblin"),
    (0x1F47B, "ghost"), (0x1F47D, "alien"), (0x1F47E, "space_invader"), (0x1F916, "robot"),
    (0x1F63A, "smiley_cat"), (0x1F638, "smile_cat"), (0x1F639, "joy_cat"), (0x1F63B, "heart_eyes_cat"),
    (0x1F63C, "smirk_cat"), (0x1F63D, "kiss_cat"), (0x1F640, "scream_cat"), (0x1F63F, "cry_cat"),
    (0x1F63E, "angry_cat")
  ]),
  ("GESTURES", [
    (0x1F44B, "wave"), (0x1F91A, "raised_back"), (0x1F590, "raised_hand"), (0x270B, "hand"),
    (0x1F596, "vulcan"), (0x1F44C, "ok_hand"), (0x1F90C, "pinched"), (0x1F90F, "pinching"),
    (0x270C, "v"), (0x1F91E, "crossed_fingers"), (0x1F91F, "love_you"), (0x1F918, "horns"),
    (0x1F919, "call_me"), (0x1F448, "point_left"), (0x1F449, "point_right"), (0x1F446, "point_up2"),
    (0x1F595, "middle_finger"), (0x1F447, "point_down"), (0x261D, "point_up"), (0x1F44D, "thumbsup"),
    (0x1F44E, "thumbsdown"), (0x270A, "fist"), (0x1F44A, "punch"), (0x1F91B, "left_fist"),
    (0x1F91C, "right_fist"), (0x1F44F, "clap"), (0x1F64C, "raised_hands"), (0x1F450, "open_hands"),
    (0x1F932, "palms_up"), (0x1F91D, "handshake"), (0x1F64F, "pray"), (0x270D, "writing"),
    (0x1F485, "nail_polish"), (0x1F933, "selfie"), (0x1F4AA, "muscle"), (0x1F9BE, "mech_arm"),
    (0x1F9BF, "mech_leg"), (0x1F9B5, "leg"), (0x1F9B6, "foot"), (0x1F442, "ear"),
    (0x1F9BB, "ear_aid"), (0x1F443, "nose"), (0x1F9E0, "brain"), (0x1F9B7, "tooth"),
    (0x1F9B4, "bone"), (0x1F440, "eyes"), (0x1F441, "eye"), (0x1F445, "tongue"),
    (0x1F444, "lips")
  ]),
  ("PEOPLE", [
    (0x1F476, "baby"), (0x1F9D2, "child"), (0x1F466, "boy"), (0x1F467, "girl"),
    (0x1F9D1, "person"), (0x1F471, "blond"), (0x1F468, "man"), (0x1F9D4, "beard"),
    (0x1F469, "woman"), (0x1F9D3, "older_person"), (0x1F474, "old_man"), (0x1F475, "old_woman"),
    (0x1F64D, "person_frown"), (0x1F64E, "person_pout"), (0x1F645, "no_good"), (0x1F646, "ok_person"),
    (0x1F481, "tipping_hand"), (0x1F64B, "raising_hand"), (0x1F9CF, "deaf_person"), (0x1F647, "person_bow"),
    (0x1F926, "facepalm"), (0x1F937, "shrug"), (0x1F46E, "cop"), (0x1F575, "detective"),
    (0x1F482, "guard"), (0x1F977, "ninja"), (0x1F477, "construction_worker"), (0x1F934, "prince"),
    (0x1F478, "princess"), (0x1F473, "turban"), (0x1F472, "man_cap"), (0x1F9D5, "headscarf"),
    (0x1F935, "tuxedo"), (0x1F470, "bride"), (0x1F930, "pregnant"), (0x1F931, "breastfeeding"),
    (0x1F47C, "angel"), (0x1F385, "santa"), (0x1F936, "mrs_claus"), (0x1F9B8, "superhero"),
    (0x1F9B9, "supervillain"), (0x1F9D9, "mage"), (0x1F9DA, "fairy"), (0x1F9DB, "vampire"),
    (0x1F9DC, "merperson"), (0x1F9DD, "elf"), (0x1F9DE, "genie"), (0x1F9DF, "zombie")
  ]),
  ("HEARTS", [
    (0x2764, "heart"), (0x1F9E1, "orange_heart"), (0x1F49B, "yellow_heart"), (0x1F49A, "green_heart"),
    (0x1F499, "blue_heart"), (0x1F49C, "purple_heart"), (0x1F90E, "brown_heart"), (0x1F5A4, "black_heart"),
    (0x1F90D, "white_heart"), (0x1F494, "broken_heart"), (0x2763, "heart_excl"), (0x1F495, "two_hearts"),
    (0x1F49E, "revolving"), (0x1F493, "heartbeat"), (0x1F497, "heartpulse"), (0x1F496, "sparkling"),
    (0x1F498, "cupid"), (0x1F49D, "gift_heart"), (0x1F49F, "heart_decor"), (0x2665, "hearts_suit"),
    (0x1F48B, "kiss_mark"), (0x1F48C, "love_letter"), (0x1F48D, "ring"), (0x1F48E, "gem"),
    (0x1F490, "bouquet"), (0x1F339, "rose"), (0x1F940, "wilted"), (0x1F33A, "hibiscus"),
    (0x1F337, "tulip"), (0x1F338, "cherry_blossom")
  ]),
  ("ANIMALS", [
    (0x1F436, "dog"), (0x1F431, "cat"), (0x1F42D, "mouse"), (0x1F439, "hamster"),
    (0x1F430, "rabbit"), (0x1F98A, "fox"), (0x1F43B, "bear"), (0x1F43C, "panda"),
    (0x1F428, "koala"), (0x1F42F, "tiger"), (0x1F981, "lion"), (0x1F42E, "cow"),
    (0x1F437, "pig"), (0x1F438, "frog"), (0x1F435, "monkey"), (0x1F648, "see_no_evil"),
    (0x1F649, "hear_no_evil"), (0x1F64A, "speak_no_evil"), (0x1F412, "monkey2"), (0x1F414, "chicken"),
    (0x1F427, "penguin"), (0x1F426, "bird"), (0x1F424, "chick"), (0x1F986, "duck"),
    (0x1F985, "eagle"), (0x1F989, "owl"), (0x1F987, "bat"), (0x1F43A, "wolf"),
    (0x1F417, "boar"), (0x1F434, "horse"), (0x1F984, "unicorn"), (0x1F41D, "bee"),
    (0x1F41B, "bug"), (0x1F98B, "butterfly"), (0x1F40C, "snail"), (0x1F41E, "ladybug"),
    (0x1F41C, "ant"), (0x1F422, "turtle"), (0x1F40D, "snake"), (0x1F409, "dragon"),
    (0x1F432, "dragon_face"), (0x1F995, "sauropod"), (0x1F996, "t_rex"), (0x1F433, "whale"),
    (0x1F42C, "dolphin"), (0x1F41F, "fish"), (0x1F420, "trop_fish"), (0x1F421, "blowfish"),
    (0x1F988, "shark"), (0x1F419, "octopus"), (0x1F41A, "shell"), (0x1F40B, "whale2"),
    (0x1F40A, "crocodile"), (0x1F406, "leopard"), (0x1F405, "tiger2"), (0x1F403, "water_buffalo"),
    (0x1F402, "ox"), (0x1F404, "cow2"), (0x1F98C, "deer"), (0x1F42A, "camel"),
    (0x1F42B, "camel2"), (0x1F999, "llama"), (0x1F992, "giraffe"), (0x1F418, "elephant"),
    (0x1F98F, "rhino"), (0x1F99B, "hippo"), (0x1F401, "mouse2"), (0x1F400, "rat"),
    (0x1F407, "rabbit2"), (0x1F43F, "chipmunk"), (0x1F994, "hedgehog"), (0x1F9A1, "badger"),
    (0x1F43E, "paw_prints")
  ]),
  ("FOOD", [
    (0x1F34E, "apple"), (0x1F34F, "green_apple"), (0x1F350, "pear"), (0x1F34A, "orange"),
    (0x1F34B, "lemon"), (0x1F34C, "banana"), (0x1F349, "watermelon"), (0x1F347, "grapes"),
    (0x1F353, "strawberry"), (0x1FAD0, "blueberries"), (0x1F352, "cherries"), (0x1F351, "peach"),
    (0x1F96D, "mango"), (0x1F34D, "pineapple"), (0x1F965, "coconut"), (0x1F95D, "kiwi"),
    (0x1F345, "tomato"), (0x1F346, "eggplant"), (0x1F951, "avocado"), (0x1F966, "broccoli"),
    (0x1F96C, "leafy_green"), (0x1F952, "cucumber"), (0x1F336, "hot_pepper"), (0x1F33D, "corn"),
    (0x1F955, "carrot"), (0x1F9C4, "garlic"), (0x1F9C5, "onion"), (0x1F954, "potato"),
    (0x1F360, "potato2"), (0x1F950, "croissant"), (0x1F35E, "bread"), (0x1F956, "baguette"),
    (0x1FAD3, "flatbread"), (0x1F968, "pretzel"), (0x1F96F, "bagel"), (0x1F95E, "pancakes"),
    (0x1F9C7, "waffle"), (0x1F9C0, "cheese"), (0x1F356, "meat"), (0x1F357, "poultry"),
    (0x1F969, "steak"), (0x1F953, "bacon"), (0x1F354, "hamburger"), (0x1F35F, "fries"),
    (0x1F355, "pizza"), (0x1F32D, "hotdog"), (0x1F96A, "sandwich"), (0x1F32E, "taco"),
    (0x1F32F, "burrito"), (0x1FAD4, "tamale"), (0x1F959, "falafel"), (0x1F95A, "egg"),
    (0x1F373, "cooking"), (0x1F958, "paella"), (0x1F372, "stew"), (0x1FAD5, "fondue"),
    (0x1F963, "bowl"), (0x1F957, "salad"), (0x1F37F, "popcorn"), (0x1F9C8, "butter"),
    (0x1F9C2, "salt"), (0x1F35C, "ramen"), (0x1F35D, "spaghetti"), (0x1F35B, "curry"),
    (0x1F35A, "rice"), (0x1F359, "rice_ball"), (0x1F358, "rice_cracker"), (0x1F365, "fish_cake"),
    (0x1F960, "fortune"), (0x1F961, "takeout"), (0x1F366, "icecream"), (0x1F367, "shaved_ice"),
    (0x1F368, "ice_cream"), (0x1F369, "doughnut"), (0x1F36A, "cookie"), (0x1F382, "birthday"),
    (0x1F370, "cake"), (0x1F9C1, "cupcake"), (0x1F967, "pie"), (0x1F36B, "chocolate"),
    (0x1F36C, "candy"), (0x1F36D, "lollipop"), (0x1F36E, "custard"), (0x1F36F, "honey"),
    (0x1F37C, "bottle"), (0x1F95B, "milk"), (0x2615, "coffee"), (0x1FAD6, "teapot"),
    (0x1F375, "tea"), (0x1F376, "sake"), (0x1F37E, "champagne"), (0x1F377, "wine"),
    (0x1F378, "cocktail"), (0x1F379, "tropical"), (0x1F37A, "beer"), (0x1F37B, "beers"),
    (0x1F942, "clinking"), (0x1F943, "tumbler"), (0x1F964, "cup_straw"), (0x1F9CB, "bubble_tea"),
    (0x1F9C3, "juice"), (0x1F9C9, "mate"), (0x1F9CA, "ice")
  ]),
  ("ACTIVITIES", [
    (0x26BD, "soccer"), (0x1F3C0, "basketball"), (0x1F3C8, "football"), (0x26BE, "baseball"),
    (0x1F94E, "softball"), (0x1F3BE, "tennis"), (0x1F3D0, "volleyball"), (0x1F3C9, "rugby"),
    (0x1F94F, "flying_disc"), (0x1F3B1, "billiards"), (0x1F3D3, "ping_pong"), (0x1F3F8, "badminton"),
    (0x1F3D2, "hockey"), (0x1F3D1, "field_hockey"), (0x1F94D, "lacrosse"), (0x1F3CF, "cricket"),
    (0x1F945, "goal"), (0x26F3, "golf"), (0x1F3F9, "bow_arrow"), (0x1F3A3, "fishing"),
    (0x1F93F, "diving"), (0x1F3BD, "running_shirt"), (0x1F6F9, "skateboard"), (0x1F6FC, "roller_skate"),
    (0x1F94C, "curling"), (0x26F7, "ski"), (0x1F3BF, "skis"), (0x1F3C2, "snowboard"),
    (0x1F3CB, "weight_lift"), (0x1F93C, "wrestling"), (0x1F938, "cartwheeling"), (0x1F93A, "fencing"),
    (0x1F93E, "handball"), (0x1F3CC, "golfing"), (0x1F3C7, "horse_racing"), (0x1F9D8, "yoga"),
    (0x1F3AF, "dart"), (0x1FA80, "yoyo"), (0x1FA81, "kite"), (0x1F3B0, "slot"),
    (0x1F3B2, "dice"), (0x1F9E9, "puzzle"), (0x1F9F8, "teddy"), (0x1FA86, "nesting"),
    (0x2660, "spades"), (0x2665, "hearts"), (0x2666, "diamonds"), (0x2663, "clubs"),
    (0x265F, "chess"), (0x1F0CF, "joker"), (0x1F004, "mahjong"), (0x1F3AD, "masks"),
    (0x1F3A8, "art"), (0x1F3C6, "trophy"), (0x1F3C5, "medal"), (0x1F947, "first_place"),
    (0x1F948, "second_place"), (0x1F949, "third_place"), (0x1F94A, "boxing"), (0x1F94B, "martial_arts"),
    (0x1F3AE, "video_game"), (0x1F579, "joystick"), (0x1F3B9, "piano"), (0x1F3B7, "saxophone"),
    (0x1F3BA, "trumpet"), (0x1F3B8, "guitar"), (0x1FA95, "banjo"), (0x1F3BB, "violin"),
    (0x1FA98, "accordion"), (0x1F941, "drum"), (0x1FA97, "maracas"), (0x1F3BC, "music_score"),
    (0x1F3A4, "microphone"), (0x1F3A7, "headphones"), (0x1F4FB, "radio")
  ]),
  ("TRAVEL", [
    (0x1F697, "car"), (0x1F695, "taxi"), (0x1F699, "suv"), (0x1F68C, "bus"),
    (0x1F68E, "trolley"), (0x1F3CE, "race_car"), (0x1F693, "police_car"), (0x1F691, "ambulance"),
    (0x1F692, "fire_engine"), (0x1F690, "minibus"), (0x1F6FB, "pickup"), (0x1F69A, "truck"),
    (0x1F69B, "semi"), (0x1F69C, "tractor"), (0x1F3CD, "motorcycle"), (0x1F6F5, "scooter"),
    (0x1F6B2, "bicycle"), (0x1F6F4, "kick_scooter"), (0x1F6FA, "auto_rick"), (0x1F6A8, "police_light"),
    (0x1F694, "police_car2"), (0x1F68D, "bus2"), (0x1F698, "car2"), (0x1F696, "taxi2"),
    (0x1F682, "train"), (0x1F683, "railway"), (0x1F684, "bullet"), (0x1F685, "bullet2"),
    (0x1F686, "train2"), (0x1F687, "metro"), (0x1F688, "light_rail"), (0x1F689, "station"),
    (0x1F68A, "tram"), (0x1F69D, "monorail"), (0x1F69E, "mountain_rail"), (0x1F69F, "suspension"),
    (0x1F6A0, "aerial"), (0x1F6A1, "gondola"), (0x1F681, "helicopter"), (0x2708, "airplane"),
    (0x1F6E9, "small_plane"), (0x1F6EB, "departure"), (0x1F6EC, "arrival"), (0x1FA82, "parachute"),
    (0x1F4BA, "seat"), (0x1F680, "rocket"), (0x1F6F8, "ufo"), (0x1F6F0, "satellite"),
    (0x1F6A2, "ship"), (0x26F5, "sailboat"), (0x1F6F6, "canoe"), (0x1F6A4, "speedboat"),
    (0x1F6F3, "ferry"), (0x26F4, "ferry2"), (0x1F6A3, "rowing"), (0x2693, "anchor"),
    (0x26FD, "fuel"), (0x1F6A7, "construction"), (0x1F6A6, "traffic"), (0x1F6A5, "traffic2"),
    (0x1F68F, "bus_stop"), (0x1F5FA, "world_map"), (0x1F5FF, "moyai"), (0x1F5FD, "liberty"),
    (0x1F5FC, "tokyo_tower"), (0x1F3F0, "castle"), (0x1F3EF, "japanese_castle"), (0x1F3E0, "house"),
    (0x1F3E1, "house_garden"), (0x1F3E2, "office"), (0x1F3E3, "post_office"), (0x1F3E4, "post_office2"),
    (0x1F3E5, "hospital"), (0x1F3E6, "bank"), (0x1F3E8, "hotel"), (0x1F3E9, "love_hotel"),
    (0x1F3EA, "store"), (0x1F3EB, "school"), (0x1F3EC, "department"), (0x1F3ED, "factory"),
    (0x26EA, "church"), (0x1F54C, "mosque"), (0x1F54D, "synagogue"), (0x26E9, "shinto"),
    (0x1F54B, "kaaba"), (0x26F2, "fountain"), (0x26FA, "tent"), (0x1F30B, "volcano"),
    (0x1F3D4, "mountain_snow"), (0x1F3D5, "camping"), (0x1F3D6, "beach"), (0x1F3DC, "desert"),
    (0x1F3DD, "island"), (0x1F3DE, "park"), (0x1F3DF, "stadium"), (0x1F3DB, "classical"),
    (0x1F3DA, "derelict"), (0x1F3D7, "construction2"), (0x1F3D8, "houses"), (0x1F3D9, "cityscape")
  ]),
  ("OBJECTS", [
    (0x231A, "watch"), (0x1F4F1, "phone"), (0x1F4F2, "calling"), (0x1F4BB, "laptop"),
    (0x2328, "keyboard"), (0x1F5A5, "computer"), (0x1F5A8, "printer"), (0x1F5B1, "computer_mouse"),
    (0x1F5B2, "trackball"), (0x1F4BD, "minidisc"), (0x1F4BE, "floppy"), (0x1F4BF, "cd"),
    (0x1F4C0, "dvd"), (0x1F9EE, "abacus"), (0x1F3A5, "film"), (0x1F39E, "film_frames"),
    (0x1F4FD, "projector"), (0x1F3AC, "clapper"), (0x1F4F7, "camera"), (0x1F4F8, "camera_flash"),
    (0x1F4F9, "video_camera"), (0x1F4FC, "vhs"), (0x1F50D, "mag"), (0x1F50E, "mag_right"),
    (0x1F56F, "candle"), (0x1F4A1, "bulb"), (0x1F526, "flashlight"), (0x1F3EE, "lantern"),
    (0x1FA94, "lamp"), (0x1F4D4, "notebook"), (0x1F4D5, "book_closed"), (0x1F4D6, "book_open"),
    (0x1F4D7, "green_book"), (0x1F4D8, "blue_book"), (0x1F4D9, "orange_book"), (0x1F4DA, "books"),
    (0x1F4D3, "notebook2"), (0x1F4D2, "ledger"), (0x1F4C3, "page_curl"), (0x1F4DC, "scroll"),
    (0x1F4C4, "page"), (0x1F4F0, "newspaper"), (0x1F5DE, "newspaper2"), (0x1F4D1, "bookmark_tabs"),
    (0x1F516, "bookmark"), (0x1F3F7, "label"), (0x1F4B0, "money_bag"), (0x1FA99, "coin"),
    (0x1F4B4, "yen"), (0x1F4B5, "dollar"), (0x1F4B6, "euro"), (0x1F4B7, "pound"),
    (0x1F4B8, "money_wings"), (0x1F4B3, "credit_card"), (0x1F9FE, "receipt"), (0x1F4B9, "chart"),
    (0x2709, "envelope"), (0x1F4E7, "email"), (0x1F4E8, "incoming"), (0x1F4E9, "outbox"),
    (0x1F4E4, "outbox2"), (0x1F4E5, "inbox"), (0x1F4E6, "package"), (0x1F4EB, "mailbox"),
    (0x1F4EA, "mailbox2"), (0x1F4EC, "mailbox3"), (0x1F4ED, "mailbox4"), (0x1F4EE, "postbox"),
    (0x1F5F3, "ballot"), (0x270F, "pencil"), (0x2712, "nib"), (0x1F58B, "pen"),
    (0x1F58A, "pen2"), (0x1F58C, "brush"), (0x1F58D, "crayon"), (0x1F4DD, "memo"),
    (0x1F4BC, "briefcase"), (0x1F4C1, "folder"), (0x1F4C2, "folder_open"), (0x1F5C2, "dividers"),
    (0x1F4C5, "calendar"), (0x1F4C6, "calendar2"), (0x1F5D2, "spiral_note"), (0x1F5D3, "spiral_cal"),
    (0x1F4C7, "rolodex"), (0x1F4C8, "chart_up"), (0x1F4C9, "chart_down"), (0x1F4CA, "bar_chart"),
    (0x1F4CB, "clipboard"), (0x1F4CC, "pushpin"), (0x1F4CD, "pin"), (0x1F4CE, "paperclip"),
    (0x1F587, "paperclips"), (0x1F4CF, "ruler"), (0x1F4D0, "ruler2"), (0x2702, "scissors"),
    (0x1F5C3, "card_box"), (0x1F5C4, "cabinet"), (0x1F5D1, "wastebasket"), (0x1F512, "lock"),
    (0x1F513, "unlock"), (0x1F50F, "lock_pen"), (0x1F510, "lock_key"), (0x1F511, "key"),
    (0x1F5DD, "old_key"), (0x1F528, "hammer"), (0x1FA93, "axe"), (0x26CF, "pick"),
    (0x2692, "hammer_pick"), (0x1F6E0, "tools"), (0x1F5E1, "dagger"), (0x2694, "swords"),
    (0x1F52B, "gun"), (0x1FA83, "boomerang"), (0x1F3F9, "bow2"), (0x1F6E1, "shield"),
    (0x1FA9A, "carpentry"), (0x1F527, "wrench"), (0x1FA9B, "screwdriver"), (0x1F529, "nut_bolt"),
    (0x2699, "gear"), (0x1F5DC, "clamp"), (0x2696, "scales"), (0x1F9AF, "cane"),
    (0x1F517, "link"), (0x26D3, "chains"), (0x1FA9D, "hook"), (0x1F9F0, "toolbox"),
    (0x1F9F2, "magnet"), (0x1FA9C, "ladder"), (0x2697, "alembic"), (0x1F9EA, "test_tube"),
    (0x1F9EB, "petri"), (0x1F9EC, "dna"), (0x1F52C, "microscope"), (0x1F52D, "telescope"),
    (0x1F4E1, "satellite2"), (0x1F489, "syringe"), (0x1FA78, "drop_blood"), (0x1F48A, "pill"),
    (0x1FA79, "adhesive_bandage"), (0x1FA7A, "stethoscope"), (0x1F6AA, "door"), (0x1F6D7, "elevator"),
    (0x1FA9E, "mirror"), (0x1FA9F, "window"), (0x1F6CF, "bed"), (0x1F6CB, "couch"),
    (0x1FA91, "chair"), (0x1F6BD, "toilet"), (0x1FAA0, "plunger"), (0x1F6BF, "shower"),
    (0x1F6C1, "bathtub"), (0x1FAA4, "mousetrap"), (0x1FA92, "razor"), (0x1F9F4, "lotion"),
    (0x1F9F7, "safety_pin"), (0x1F9F9, "broom"), (0x1F9FA, "basket"), (0x1F9FB, "roll"),
    (0x1FAA3, "bucket"), (0x1F9FC, "soap"), (0x1FAE7, "bubbles"), (0x1FAA5, "toothbrush"),
    (0x1F9FD, "sponge"), (0x1F9EF, "extinguisher"), (0x1F6D2, "cart"), (0x1F6AC, "cigarette"),
    (0x26B0, "coffin"), (0x1FAA6, "headstone"), (0x26B1, "urn"), (0x1F5FF, "moai"),
    (0x1FAA7, "placard"), (0x1FAA8, "rock")
  ]),
  ("SYMBOLS", [
    (0x2705, "check"), (0x274C, "cross"), (0x274E, "cross_neg"), (0x2795, "plus"),
    (0x2796, "minus"), (0x2797, "divide"), (0x27B0, "curly_loop"), (0x27BF, "double_loop"),
    (0x2B50, "star"), (0x1F31F, "star2"), (0x2728, "sparkles"), (0x1F4AB, "dizzy"),
    (0x1F4A5, "boom"), (0x1F4A2, "anger"), (0x1F4A6, "sweat_drops"), (0x1F4A8, "dash"),
    (0x1F573, "hole"), (0x1F4AC, "speech"), (0x1F5E8, "left_speech"), (0x1F5EF, "speech_right"),
    (0x1F4AD, "thought"), (0x1F4A4, "zzz"), (0x1F525, "fire"), (0x1F4AF, "100"),
    (0x1F389, "tada"), (0x1F38A, "confetti"), (0x1F388, "balloon"), (0x1F381, "gift"),
    (0x1F380, "ribbon"), (0x1F397, "reminder"), (0x1F39F, "tickets"), (0x1F3AB, "ticket"),
    (0x1F396, "military"), (0x26A1, "zap"), (0x1F300, "cyclone"), (0x1F308, "rainbow"),
    (0x2602, "umbrella2"), (0x2614, "umbrella"), (0x2604, "comet"), (0x1F4A7, "droplet"),
    (0x1F30A, "ocean"), (0x1F514, "bell"), (0x1F515, "no_bell"), (0x1F3B5, "music"),
    (0x1F3B6, "notes"), (0x1F399, "studio_mic"), (0x1F39A, "level"), (0x1F39B, "knobs"),
    (0x1F4FA, "tv"), (0x1F507, "mute"), (0x1F508, "quiet"), (0x1F509, "sound"),
    (0x1F50A, "loud"), (0x1F4E3, "mega"), (0x1F4E2, "loudspeaker"), (0x1F50B, "battery"),
    (0x1F50C, "plug"), (0x2757, "exclamation"), (0x2753, "question"), (0x2754, "grey_question"),
    (0x2755, "grey_excl"), (0x2049, "interrobang"), (0x203C, "bangbang"), (0x1F534, "red_circle"),
    (0x1F7E0, "orange_circle"), (0x1F7E1, "yellow_circle"), (0x1F7E2, "green_circle"), (0x1F535, "blue_circle"),
    (0x1F7E3, "purple_circle"), (0x1F7E4, "brown_circle"), (0x26AB, "black_circle"), (0x26AA, "white_circle"),
    (0x1F7E5, "red_square"), (0x1F7E7, "orange_square"), (0x1F7E8, "yellow_square"), (0x1F7E9, "green_square"),
    (0x1F7E6, "blue_square"), (0x1F7EA, "purple_square"), (0x1F7EB, "brown_square"), (0x2B1B, "black_square"),
    (0x2B1C, "white_square"), (0x25FC, "black_medium"), (0x25FB, "white_medium"), (0x25FE, "black_small"),
    (0x25FD, "white_small"), (0x25AA, "black_tiny"), (0x25AB, "white_tiny"), (0x1F536, "orange_diamond"),
    (0x1F537, "blue_diamond"), (0x1F538, "small_orange"), (0x1F539, "small_blue"), (0x1F53A, "red_triangle"),
    (0x1F53B, "red_triangle2"), (0x1F4A0, "diamond_shape"), (0x1F518, "radio_button"), (0x1F532, "black_button"),
    (0x1F533, "white_button"), (0x26D4, "no_entry"), (0x1F6AB, "no_entry2"), (0x1F6B3, "no_bikes"),
    (0x1F6AD, "no_smoking"), (0x1F6AF, "no_litter"), (0x1F6B1, "no_water"), (0x1F6B7, "no_pedestrians"),
    (0x1F4F5, "no_phones"), (0x1F51E, "underage"), (0x2622, "radioactive"), (0x2623, "biohazard"),
    (0x2B06, "arrow_up"), (0x2197, "arrow_upper_right"), (0x27A1, "arrow_right"), (0x2198, "arrow_lower_right"),
    (0x2B07, "arrow_down"), (0x2199, "arrow_lower_left"), (0x2B05, "arrow_left"), (0x2196, "arrow_upper_left"),
    (0x2195, "arrow_up_down"), (0x2194, "arrow_left_right"), (0x21A9, "leftwards"), (0x21AA, "rightwards"),
    (0x2934, "arrow_heading_up"), (0x2935, "arrow_heading_down"), (0x1F503, "clockwise"), (0x1F504, "counterclockwise"),
    (0x1F519, "back"), (0x1F51A, "end"), (0x1F51B, "on"), (0x1F51C, "soon"),
    (0x1F51D, "top"), (0x1F6D0, "place_of_worship"), (0x269B, "atom"), (0x1F549, "om"),
    (0x2721, "star_of_david"), (0x2638, "wheel"), (0x262F, "yin_yang"), (0x271D, "cross2"),
    (0x2626, "orthodox"), (0x262A, "star_crescent"), (0x262E, "peace"), (0x1F54E, "menorah"),
    (0x1F52F, "six_star"), (0x2648, "aries"), (0x2649, "taurus"), (0x264A, "gemini"),
    (0x264B, "cancer"), (0x264C, "leo"), (0x264D, "virgo"), (0x264E, "libra"),
    (0x264F, "scorpio"), (0x2650, "sagittarius"), (0x2651, "capricorn"), (0x2652, "aquarius"),
    (0x2653, "pisces"), (0x26CE, "ophiuchus"), (0x1F500, "shuffle"), (0x1F501, "repeat"),
    (0x1F502, "repeat_one"), (0x25B6, "play"), (0x23E9, "fast_forward"), (0x23ED, "next_track"),
    (0x23EF, "play_pause"), (0x25C0, "reverse"), (0x23EA, "rewind"), (0x23EE, "prev_track"),
    (0x1F53C, "up_button"), (0x23EB, "fast_up"), (0x1F53D, "down_button"), (0x23EC, "fast_down"),
    (0x23F8, "pause"), (0x23F9, "stop"), (0x23FA, "record"), (0x23CF, "eject"),
    (0x1F3A6, "cinema"), (0x1F505, "low_bright"), (0x1F506, "high_bright"), (0x1F4F6, "signal"),
    (0x1F4F3, "vibration"), (0x1F4F4, "phone_off"), (0x2640, "female"), (0x2642, "male"),
    (0x26A7, "transgender"), (0x2716, "heavy_mult"), (0x2795, "heavy_plus"), (0x2796, "heavy_minus"),
    (0x2797, "heavy_div"), (0x267E, "infinity"), (0x1F4B2, "heavy_dollar"), (0x1F4B1, "currency"),
    (0xA9, "copyright"), (0xAE, "registered"), (0x2122, "tm"), (0x30, "zero"),
    (0x31, "one"), (0x32, "two"), (0x33, "three"), (0x34, "four"),
    (0x35, "five"), (0x36, "six"), (0x37, "seven"), (0x38, "eight"),
    (0x39, "nine"), (0x1F51F, "ten"), (0x1F520, "abc_upper"), (0x1F521, "abc_lower"),
    (0x1F522, "numbers"), (0x1F523, "symbols"), (0x1F524, "abc"), (0x1F170, "a_button"),
    (0x1F18E, "ab_button"), (0x1F171, "b_button"), (0x1F191, "cl"), (0x1F192, "cool"),
    (0x1F193, "free"), (0x2139, "info"), (0x1F194, "id"), (0x24C2, "m"),
    (0x1F195, "new"), (0x1F196, "ng"), (0x1F17E, "o_button"), (0x1F197, "ok"),
    (0x1F17F, "parking"), (0x1F198, "sos"), (0x1F199, "up"), (0x1F19A, "vs"),
    (0x1F201, "koko"), (0x1F202, "sa"), (0x1F237, "monthly"), (0x1F236, "u6709"),
    (0x1F22F, "u6307"), (0x1F250, "u5272"), (0x1F239, "u5408"), (0x1F21A, "u7121"),
    (0x1F232, "u7981"), (0x1F251, "u7a7a"), (0x1F238, "u7533"), (0x1F234, "u5408_2"),
    (0x1F233, "u7a7a_2"), (0x3297, "circled_ideograph"), (0x3299, "circled_secret"), (0x1F23A, "u55b6"),
    (0x1F235, "u6e80")
  ]),
  ("FLAGS", [
    (0x1F3C1, "checkered"), (0x1F6A9, "triangular"), (0x1F38C, "crossed_flags"), (0x1F3F4, "black_flag"),
    (0x1F3F3, "white_flag"), (0x1F3F3, "rainbow_flag"), (0x1F3F4, "pirate")
  ])
]

/-- `total = sum(len(v) for v in EMOJI_DATA.values())` (line 1069). -/
def total : Nat := (EMOJI_DATA.map (fun p => p.2.length)).sum

/-- All configured numeric symbol codes, in declaration order. -/
def all_codes : List Nat := (EMOJI_DATA.map (fun p => p.2.map Prod.fst)).flatten

/-- All configured short names, in declaration order. -/
def all_names : List String := (EMOJI_DATA.map (fun p => p.2.map Prod.snd)).flatten


/-- Certificate key for a short name (used only through `List.Nodup.of_map`:
distinct keys force distinct names, no injectivity assumption needed).  The
multiplier was chosen so that the 1013 configured names get pairwise
distinct keys below 2^17. -/
def strKey (s : String) : Nat :=
  (s.data.foldl (fun acc c => acc * 309 + c.toNat) 1) % 131072

/-- Linear duplicate-freedom check on `Nat` lists: a bit set accumulated in
a natural number; written with a bare `List.rec` so it reduces cheaply in
the kernel. -/
def chkDistinct (l : List Nat) : Nat → Bool :=
  l.rec (fun _ => true)
    (fun r _ ih acc => (!Nat.testBit acc r) && ih (acc ||| (1 <<< r)))


/-- The `strKey` images of `all_names`, in order (a precomputed literal,
checked against `all_names.map strKey` below). -/
def nameKeys : List Nat := [
  47353, 108904, 100883, 74608, 33222, 102538, 27772, 75291, 29629, 75402, 43790, 41063,
  21223, 48694, 230, 35682, 27267, 47477, 45814, 61044, 112917, 10515, 67556, 35542,
  4339, 103675, 126718, 130497, 83468, 78672, 24114, 44069, 78943, 108050, 16352, 19252,
  50514, 102743, 50203, 103268, 10965, 105412, 33, 77791, 10107, 7819, 22592, 74701,
  116965, 109031, 89439, 19538, 39188, 15396, 105327, 74433, 43145, 64287, 77192, 39777,
  22766, 49549, 75522, 81466, 76676, 46753, 95101, 12769, 109127, 84962, 55703, 57632,
  86505, 101159, 2649, 66082, 91740, 44625, 63211, 17093, 73924, 120874, 29638, 26615,
  102009, 52729, 30301, 116110, 35890, 2060, 142, 4024, 83521, 110255, 42156, 37766,
  5699, 33180, 16770, 12540, 9054, 31146, 14257, 74203, 45839, 102858, 81746, 81453,
  122318, 124730, 123819, 87842, 15701, 68840, 54017, 911, 11004, 16998, 123061, 70180,
  50641, 427, 88073, 73019, 27211, 17634, 64057, 118040, 25125, 57562, 7178, 107399,
  21745, 46116, 96195, 32235, 108205, 10868, 77641, 19470, 113032, 45306, 103324, 25681,
  3665, 129567, 45169, 40242, 8881, 6573, 1001, 12485, 117841, 43854, 113138, 37941,
  85215, 93517, 34271, 125244, 47119, 38769, 63815, 62529, 97875, 108307, 29756, 121988,
  95253, 10207, 6807, 113869, 47071, 37393, 93871, 21551, 89574, 67885, 69462, 30020,
  23123, 108947, 1198, 114418, 62275, 104898, 13220, 68441, 128537, 80994, 44692, 112241,
  36904, 117678, 80970, 13803, 16076, 34816, 127184, 38392, 61734, 30002, 33555, 70987,
  95820, 40085, 50184, 121228, 4253, 122631, 115989, 37948, 6888, 75509, 64584, 19404,
  4556, 91457, 19737, 67245, 35196, 27009, 46849, 101573, 26410, 3104, 105114, 76962,
  115221, 122880, 130181, 127830, 112713, 47890, 70022, 31782, 126610, 97803, 1027, 102080,
  26675, 57953, 119334, 42509, 28977, 86582, 52207, 46101, 94681, 28600, 38455, 62282,
  122017, 36771, 109748, 26177, 48232, 82112, 95606, 65386, 21831, 46154, 59755, 32508,
  125655, 30867, 93544, 91765, 89513, 28742, 51135, 94765, 99711, 101466, 3904, 60937,
  2080, 130353, 4515, 13812, 51934, 68670, 37103, 88142, 58555, 96183, 78047, 34527,
  63182, 54406, 50037, 104024, 7181, 54568, 55626, 12510, 129900, 108676, 78301, 93151,
  78941, 97176, 103969, 13922, 130965, 24433, 43024, 48376, 41047, 118916, 26412, 17410,
  41192, 96023, 55543, 95141, 106409, 108000, 95866, 113563, 106007, 62458, 103397, 130194,
  33910, 59695, 68723, 59172, 28493, 116865, 85651, 83542, 110782, 68482, 113887, 117707,
  107191, 72612, 51987, 87428, 42952, 33946, 26275, 24167, 84586, 51334, 8095, 5080,
  58319, 105618, 126962, 57856, 80064, 64713, 19464, 130098, 40946, 118455, 6010, 70830,
  25692, 47304, 86049, 123132, 119684, 3551, 89556, 124092, 49438, 96305, 103706, 79854,
  18763, 16049, 29888, 112398, 36734, 109312, 23114, 49470, 121614, 38412, 112726, 124054,
  47880, 108697, 66063, 48783, 35156, 79005, 10013, 122015, 57459, 57264, 63964, 79743,
  35728, 46219, 49954, 113641, 86158, 109483, 15725, 48993, 43784, 34991, 76131, 53443,
  130002, 95740, 12216, 109881, 23718, 104421, 75004, 107154, 40372, 16726, 17104, 47955,
  46428, 54918, 15355, 97882, 127092, 31603, 40910, 111045, 66796, 103299, 39033, 8930,
  20580, 23973, 72163, 48921, 110210, 65119, 104089, 44796, 48093, 15864, 52427, 26132,
  49267, 31520, 8634, 21711, 15703, 815, 15301, 115073, 93612, 120649, 27562, 18691,
  66378, 117467, 85355, 130665, 19397, 58060, 34224, 75294, 75999, 90368, 37989, 14052,
  3316, 115795, 70248, 53713, 108657, 49828, 94840, 129376, 103061, 18137, 87032, 6818,
  37830, 49185, 19635, 49194, 96899, 13773, 88585, 70361, 70929, 22428, 89300, 57951,
  32175, 18967, 99723, 62004, 66525, 111470, 76069, 47592, 512, 25653, 34778, 5055,
  33380, 108386, 18632, 56960, 95225, 46106, 50536, 103416, 12537, 81117, 111725, 93095,
  68646, 72989, 9267, 61637, 30336, 112816, 49579, 75385, 62162, 113979, 28732, 7279,
  102877, 75168, 30329, 93005, 60993, 22638, 92442, 1358, 10329, 74215, 123748, 28125,
  5220, 60643, 121148, 87361, 124839, 70715, 84952, 57985, 67608, 42784, 113106, 105180,
  21438, 102484, 9784, 25455, 12917, 34983, 53041, 509, 2669, 35882, 77540, 97705,
  67509, 84313, 127614, 107266, 122337, 76473, 80953, 120346, 94343, 113287, 107126, 48657,
  47829, 17804, 95919, 58806, 13368, 5576, 58644, 47320, 111679, 114712, 86432, 69953,
  50474, 5784, 4582, 108564, 100607, 55251, 43717, 120198, 35152, 42821, 15244, 130721,
  85969, 39119, 126172, 28835, 28372, 94025, 56634, 104933, 25216, 80842, 103335, 11348,
  39246, 95246, 1483, 127012, 10422, 95007, 23685, 60423, 72910, 29541, 20033, 25832,
  31311, 17651, 27291, 115928, 118840, 100739, 114628, 108274, 63722, 29348, 9268, 32879,
  53477, 101014, 104410, 62613, 111979, 49576, 105135, 40424, 8045, 15409, 86983, 68411,
  94213, 52137, 104130, 63580, 99737, 56549, 41041, 98807, 98808, 98809, 84900, 73051,
  23352, 62122, 120788, 99094, 115637, 21073, 61559, 68453, 19649, 57726, 89867, 42131,
  42401, 39893, 29711, 88766, 92843, 73230, 11699, 30737, 4668, 122024, 28285, 89428,
  51919, 52237, 128238, 67575, 97871, 41511, 83342, 93181, 92104, 7926, 36610, 119500,
  91563, 5155, 84460, 129185, 82754, 69619, 102203, 52835, 59287, 96247, 31746, 73913,
  83508, 118613, 36360, 114352, 4078, 7952, 79932, 38143, 64423, 37334, 5404, 18705,
  67721, 97650, 61976, 17677, 26360, 127821, 74453, 96230, 47554, 63921, 87242, 121975,
  49310, 118697, 12123, 69788, 68673, 94764, 112879, 84200, 64234, 16910, 118893, 116895,
  41361, 94587, 120050, 60255, 65808, 61483, 29626, 127791, 38660, 22972, 67019, 100241,
  36136, 81183, 98065, 114886, 91604, 77922, 95151, 94712, 26844, 71047, 106523, 42188,
  114329, 32385, 107118, 58189, 101229, 122851, 81201, 118822, 38019, 93834, 127190, 15652,
  93909, 36401, 32893, 10775, 114194, 15988, 33523, 95871, 118358, 25987, 109005, 26940,
  104607, 84465, 104647, 24660, 50557, 30064, 25788, 58726, 58807, 102259, 99165, 5021,
  55763, 88747, 55600, 120276, 130926, 59014, 39237, 46733, 105194, 371, 18544, 119221,
  92482, 88897, 59691, 10120, 12572, 114317, 47210, 125781, 122083, 75619, 128820, 90209,
  55745, 6394, 108182, 78407, 110454, 43466, 42954, 25603, 15291, 76940, 27589, 129377,
  99602, 577, 64661, 64149, 46798, 36486, 81846, 71534, 98942, 27222, 51825, 108009,
  91608, 2436, 1729, 46253, 23445, 35595, 53957, 67307, 43637, 33325, 19435, 107225,
  24095, 38009, 15861, 40060, 104023, 26562, 98628, 114884, 51301, 109524, 57972, 53121,
  88037, 4847, 125042, 61726, 41381, 86255, 91483, 13097, 46832, 90879, 112578, 43077,
  21441, 64110, 121844, 129890, 42984, 112588, 80633, 34522, 129889, 50394, 74694, 62343,
  16585, 66012, 59217, 33907, 124955, 124050, 105725, 107517, 124986, 29381, 1009, 109876,
  25843, 68444, 38825, 2430, 1512, 111088, 13417, 25978, 120558, 102659, 108155, 101139,
  113356, 78540, 52773, 69198, 31086, 93057, 103247, 83584, 62866, 63747, 127175, 1524,
  43788, 14294, 84626, 32180, 115867, 59067, 54941, 8415, 72532, 96490, 66107, 33277,
  22069, 67416, 114127, 70063, 104536, 83594, 50871, 362, 93609, 28079, 115059, 17873,
  14337, 97107, 15261, 60902, 92794, 62995, 109496, 116518, 23983, 64165, 122370, 129427,
  70309, 2583, 77730, 126180, 106262, 33679, 82577, 128026, 418, 60907, 129574, 43131,
  129887, 103937, 17110, 674, 986, 73389, 41, 96748, 77552, 88842, 114162, 40823,
  41993, 21263, 39154, 31012, 31132, 56895, 945, 31180, 20680, 15693, 3495, 130430,
  10732, 29155, 85339, 85336, 43390
]

/-- A side effect of one pipeline run that the artifact does not record: a
network request (line 1104) or a `time.sleep(0.05)` call (line 1252). -/
inductive Ev where
  | request (codepoint : Nat)
  | sleep
deriving DecidableEq, Repr

/-- The cache directory `.emoji_cache`: file name ↦ file bytes. -/
abbrev CacheMap := String → Option Bytes

/-- The network, as an oracle: response bytes for a codepoint's file, or
`none` for a `URLError`/`HTTPError` (lines 1104–1115). -/
abbrev Net := Nat → Option Bytes

/-- The `SourceCache.put` of the spec: writing `data` to the cache file
`name` (lines 1109–1110). -/
def cache_put (c : CacheMap) (name : String) (data : Bytes) : CacheMap :=
  fun k => if k = name then some data else c k

/-- The `SourceCache.get` of the spec: the contents of cache file `name`
when it exists (lines 1090–1092). -/
def cache_get (c : CacheMap) (name : String) : Option Bytes := c name

/-- `codepoint_to_twemoji_filename` (lines 1079–1081): lowercase hexadecimal
plus `.png`. -/
def codepoint_to_twemoji_filename (codepoint : Nat) : String :=
  String.mk (Nat.toDigits 16 codepoint) ++ ".png"

/-- What one call of `download_twemoji` produces: the returned value, the
cache directory afterwards, and the network requests it made. -/
structure FetchResult where
  result : Option Bytes
  cache : CacheMap
  events : List Ev

/-- `download_twemoji` (lines 1084–1115): the cache is consulted first; on a
hit the cached bytes are returned with no network access; on a miss one
request is issued, successful bytes are written to the cache before being
returned, and on failure `None` is returned with no retry. -/
def download_twemoji (net : Net) (cache : CacheMap) (codepoint : Nat) : FetchResult :=
  let filename := codepoint_to_twemoji_filename codepoint
  match cache_get cache filename with
  | some data => ⟨some data, cache, []⟩
  | none =>
      match net codepoint with
      | some data => ⟨some data, cache_put cache filename data, [Ev.request codepoint]⟩
      | none => ⟨none, cache, [Ev.request codepoint]⟩

/-- `rgb_to_rgb565` (lines 1118–1120). -/
def rgb_to_rgb565 (r g b : Nat) : Nat :=
  ((r &&& 0xF8) <<< 8) ||| ((g &&& 0xFC) <<< 3) ||| (b >>> 3)

/-- The PIL stage of `process_twemoji_to_rgb565` (lines 1126–1148):
`Image.open`, conversion to RGBA, LANCZOS resize to the target square and
compositing over an opaque black background, ending in
`background.getdata()`.  This is third-party library behaviour, modelled as
an oracle returning the flattened row-major list of 8-bit RGB triples, or
`none` when the payload is undecodable (the `except` branch, lines
1154–1156). -/
abbrev Decode := Bytes → Option (List (Nat × Nat × Nat))

/-- `process_twemoji_to_rgb565` (lines 1123–1156): decode through PIL, then
map `rgb_to_rgb565` over the flattened pixels (lines 1148–1153). -/
def process_twemoji_to_rgb565 (decode : Decode) (png_data : Bytes) :
    Option (List Nat) :=
  match decode png_data with
  | some pixels => some (pixels.map fun p => rgb_to_rgb565 p.1 p.2.1 p.2.2)
  | none => none

/-- The question-mark glyph pattern of `generate_placeholder`
(lines 1163–1176). -/
def pattern : List String := [
  "000111111000",
  "001111111100",
  "011100001110",
  "011100001110",
  "000000011110",
  "000000111100",
  "000001111000",
  "000001110000",
  "000001110000",
  "000000000000",
  "000001110000",
  "000001110000"
]

set_option linter.unusedVariables false in
/-- `generate_placeholder` (lines 1159–1185): yellow question mark on black.
The `size` argument is accepted but never used, exactly as in the source. -/
def generate_placeholder (size : Nat) : List Nat :=
  let yellow := rgb_to_rgb565 255 215 0
  let black := rgb_to_rgb565 0 0 0
  (pattern.map (fun row => row.data.map (fun c => if c = '1' then yellow else black))).flatten

/-- Uppercase hexadecimal digits, as Python's format specifier `X`. -/
def hexUpper (n : Nat) : List Char := (Nat.toDigits 16 n).map Char.toUpper

/-- Python's zero-padded uppercase hexadecimal format `0{w}X`. -/
def padHex (w : Nat) (n : Nat) : String :=
  let ds := hexUpper n
  String.mk (List.replicate (w - ds.length) '0' ++ ds)

/-- The `static const uint16_t … PROGMEM` block printed for one bitmap
(lines 1240–1247): twelve rows of twelve `0x%04X` values, then `};` and a
blank line. -/
def bitmap_lines (var_name : String) (data : List Nat) : List String :=
  ("static const uint16_t " ++ var_name ++ "[144] PROGMEM = \x7b")
    :: ((List.range 12).map (fun i =>
        let row := (data.drop (12 * i)).take 12
        let hex_row := String.intercalate ", " (row.map (fun v => "0x" ++ padHex 4 v))
        let comma := if 12 * i + 12 < 144 then "," else ""
        "    " ++ hex_row ++ comma))
    ++ ["\x7d;", ""]

/-- The fixed header printed by `main` before the generation loop
(lines 1193–1210). -/
def header_lines : List String := [
  "/**",
  " * MeshBerry Emoji Bitmap Data (Auto-Generated from Twemoji)",
  " * ",
  " * SPDX-License-Identifier: GPL-3.0-or-later",
  " * Copyright (C) 2026 NodakMesh (nodakmesh.org)",
  " * ",
  " * Twemoji graphics licensed under CC-BY 4.0",
  " * https://github.com/twitter/twemoji",
  " * ",
  " * Total: " ++ Nat.repr total ++ " emoji as 12x12 RGB565 bitmaps",
  " */",
  "",
  "#ifndef MESHBERRY_EMOJI_DATA_H",
  "#define MESHBERRY_EMOJI_DATA_H",
  "",
  "#include <Arduino.h>",
  "#include \"Emoji.h\"",
  ""
]

/-- One record of the combined table (lines 1261–1263). -/
def entry_line (e : Nat × String × String × String) : String :=
  "    \x7b 0x" ++ padHex 5 e.1 ++ ", \"" ++ e.2.1 ++ "\", " ++ e.2.2.1
    ++ ", EmojiCategory::" ++ e.2.2.2 ++ " \x7d,"

/-- The trailing combined table and footer (lines 1254–1267). -/
def table_lines (entries : List (Nat × String × String × String)) : List String :=
  ["// ============ EMOJI TABLE ============", "",
   "const int EMOJI_COUNT = " ++ Nat.repr entries.length ++ ";", "",
   "const EmojiEntry EMOJI_TABLE[EMOJI_COUNT] PROGMEM = \x7b"]
  ++ entries.map entry_line
  ++ ["\x7d;", "", "#endif // MESHBERRY_EMOJI_DATA_H"]

/-- Python's `str.upper()` on an ASCII short name (`shortcode.upper()`,
line 1222). -/
def shortcode_upper (s : String) : String := String.mk (s.data.map Char.toUpper)

/-- The state of `main`'s generation loop (lines 1212–1252): artifact lines
printed so far, the two counters, the accumulated table entries, the cache
directory contents, and the trace of network requests and sleeps. -/
structure RunState where
  lines : List String
  success_count : Nat
  fail_count : Nat
  all_entries : List (Nat × String × String × String)
  cache : CacheMap
  events : List Ev

/-- The bitmap chosen for one identifier together with the increments of
`success_count` and `fail_count` (lines 1228–1237).  Python truthiness makes
`None`, an empty payload and an empty bitmap all fall back to the
placeholder. -/
def resolve_bitmap (decode : Decode) (png_data : Option Bytes) :
    List Nat × Nat × Nat :=
  match png_data with
  | some png =>
      if png.isEmpty then (generate_placeholder 12, 0, 1)
      else
        match process_twemoji_to_rgb565 decode png with
        | some data =>
            if data.isEmpty then (generate_placeholder 12, 0, 1) else (data, 1, 0)
        | none => (generate_placeholder 12, 0, 1)
  | none => (generate_placeholder 12, 0, 1)

/-- The body of the inner loop of `main` (lines 1221–1252) for one
`(codepoint, shortcode)` pair of category `category`: fetch, rasterize or
fall back, print the bitmap block, append the table entry, then
`time.sleep(0.05)`. -/
def process_one (net : Net) (decode : Decode) (category : String)
    (st : RunState) (e : Nat × String) : RunState :=
  let var_name := "EMOJI_BMP_" ++ shortcode_upper e.2
  let fr := download_twemoji net st.cache e.1
  let dsf := resolve_bitmap decode fr.result
  { lines := st.lines ++ bitmap_lines var_name dsf.1,
    success_count := st.success_count + dsf.2.1,
    fail_count := st.fail_count + dsf.2.2,
    all_entries := st.all_entries ++ [(e.1, e.2, var_name, category)],
    cache := fr.cache,
    events := st.events ++ fr.events ++ [Ev.sleep] }

/-- One iteration of the outer loop of `main` (lines 1217–1252): the
category banner and blank line, then each emoji of the category. -/
def process_category (net : Net) (decode : Decode) (st : RunState)
    (ce : String × List (Nat × String)) : RunState :=
  let st1 := { st with lines := st.lines ++
    ["// ============ " ++ ce.1 ++ " (" ++ Nat.repr ce.2.length ++ " emoji) ============", ""] }
  ce.2.foldl (process_one net decode ce.1) st1

/-- `main` (lines 1188–1267), with stdout collected as a list of lines:
header, per-category bitmap blocks, then the trailing combined table.
Diagnostics go to stderr and are not part of the artifact. -/
def main_run (net : Net) (decode : Decode) (cache0 : CacheMap) : RunState :=
  let st0 : RunState := ⟨header_lines, 0, 0, [], cache0, []⟩
  let st := EMOJI_DATA.foldl (process_category net decode) st0
  { st with lines := st.lines ++ table_lines st.all_entries }

/-- The artifact text, as written to stdout by `print`: each line followed
by a newline. -/
def artifact_text (net : Net) (decode : Decode) (cache0 : CacheMap) : String :=
  String.intercalate "\n" (main_run net decode cache0).lines ++ "\n"

/-- The table entry contributed by one configured pair. -/
def entry_of (category : String) (e : Nat × String) :
    Nat × String × String × String :=
  (e.1, e.2, "EMOJI_BMP_" ++ shortcode_upper e.2, category)

/-- The combined table in the configuration's declaration order. -/
def config_entries : List (Nat × String × String × String) :=
  (EMOJI_DATA.map (fun ce => ce.2.map (entry_of ce.1))).flatten

/-- Python truthiness of `png_data` at line 1228: `None` and `b""` are
falsy. -/
def bytes_falsy : Option Bytes → Bool
  | none => true
  | some b => b.isEmpty

/-- Python truthiness of `data` at line 1230: `None` and `[]` are falsy. -/
def bitmap_falsy : Option (List Nat) → Bool
  | none => true
  | some d => d.isEmpty

/-- A network oracle on which every request fails. -/
def netNone : Net := fun _ => none

/-- A decode oracle on which every payload is undecodable. -/
def decodeNone : Decode := fun _ => none

/-- A cache holding one byte for every possible file name. -/
def cacheFull : CacheMap := fun _ => some [0]

/-- A cache holding only the file of codepoint `0x1F600` (`grin`). -/
def cacheGrin : CacheMap :=
  cache_put (fun _ => none) (codepoint_to_twemoji_filename 0x1F600) [1, 2, 3]

/-- An empty run state over `cacheGrin`, for concrete evaluations. -/
def stGrin : RunState := ⟨[], 0, 0, [], cacheGrin, []⟩

/-- An empty run state over the empty cache, for concrete evaluations. -/
def stEmpty : RunState := ⟨[], 0, 0, [], fun _ => none, []⟩

theorem chkDistinct_cons (r : Nat) (rs : List Nat) (acc : Nat) :
    chkDistinct (r :: rs) acc
      = ((!Nat.testBit acc r) && chkDistinct rs (acc ||| (1 <<< r))) := rfl

theorem testBit_one_shiftLeft_self (n : Nat) : Nat.testBit (1 <<< n) n = true := by
  rw [Nat.shiftLeft_eq, one_mul]
  exact Nat.testBit_two_pow_self

theorem nodup_of_chkDistinct :
    ∀ (l : List Nat) (acc : Nat), chkDistinct l acc = true →
      l.Nodup ∧ ∀ x ∈ l, acc.testBit x = false := by
  intro l
  induction l with
  | nil => intro acc _; exact ⟨List.nodup_nil, by simp⟩
  | cons r rs ih =>
      intro acc h
      rw [chkDistinct_cons, Bool.and_eq_true, Bool.not_eq_true'] at h
      obtain ⟨hnd, hmem⟩ := ih (acc ||| (1 <<< r)) h.2
      have hr : r ∉ rs := by
        intro hin
        have ht := hmem r hin
        rw [Nat.testBit_lor, testBit_one_shiftLeft_self, Bool.or_true] at ht
        simp at ht
      refine ⟨List.nodup_cons.mpr ⟨hr, hnd⟩, ?_⟩
      intro x hx
      rcases List.mem_cons.mp hx with h1 | h1
      · rw [h1]; exact h.1
      · have ht := hmem x h1
        rw [Nat.testBit_lor, Bool.or_eq_false_iff] at ht
        exact ht.1

set_option maxRecDepth 4000 in
theorem and248 : ∀ r, r < 256 → r &&& 0xF8 = (r >>> 3) <<< 3 := by decide

set_option maxRecDepth 4000 in
theorem and252 : ∀ g, g < 256 → g &&& 0xFC = (g >>> 2) <<< 2 := by decide

theorem rgb565_lt (r g b : Nat) (hr : r < 256) (hg : g < 256) (hb : b < 256) :
    rgb_to_rgb565 r g b < 65536 := by
  unfold rgb_to_rgb565
  have e : (65536 : Nat) = 2 ^ 16 := by norm_num
  rw [e]
  apply Nat.or_lt_two_pow
  · apply Nat.or_lt_two_pow
    · have h1 : (r &&& 0xF8) ≤ r := Nat.and_le_left
      rw [Nat.shiftLeft_eq]
      norm_num
      omega
    · have h2 : (g &&& 0xFC) ≤ g := Nat.and_le_left
      rw [Nat.shiftLeft_eq]
      norm_num
      omega
  · have h3 : b >>> 3 ≤ b := by
      rw [Nat.shiftRight_eq_div_pow]; exact Nat.div_le_self b (2 ^ 3)
    omega

set_option maxRecDepth 4000 in
theorem placeholder_length : (generate_placeholder 12).length = 144 := by decide

set_option maxRecDepth 4000 in
theorem placeholder_lt : ∀ v ∈ generate_placeholder 12, v < 65536 := by decide

theorem count_map_eq_countP (f : Nat × String × String × String → String)
    (s : String) :
    ∀ xs : List (Nat × String × String × String),
      (xs.map f).count s = xs.countP (fun x => f x == s) := by
  intro xs
  induction xs with
  | nil => rfl
  | cons x xs ih =>
    simp [List.count_cons, List.countP_cons, ih, List.count, Function.comp_def]

theorem download_hit {cache : CacheMap} {codepoint : Nat} (net : Net) {b : Bytes}
    (h : cache_get cache (codepoint_to_twemoji_filename codepoint) = some b) :
    download_twemoji net cache codepoint = ⟨some b, cache, []⟩ := by
  simp [download_twemoji, h]

theorem download_events_no_sleep (net : Net) (cache : CacheMap) (codepoint : Nat) :
    (download_twemoji net cache codepoint).events.count Ev.sleep = 0 := by
  unfold download_twemoji
  cases hc : cache_get cache (codepoint_to_twemoji_filename codepoint) with
  | some d => simp [hc]
  | none =>
      cases hn : net codepoint with
      | some d => simp [hc, hn, List.count_cons]
      | none => simp [hc, hn, List.count_cons]

theorem process_one_entries (net : Net) (decode : Decode) (category : String)
    (st : RunState) (e : Nat × String) :
    (process_one net decode category st e).all_entries
      = st.all_entries ++ [entry_of category e] := rfl

theorem process_one_sleep_count (net : Net) (decode : Decode) (category : String)
    (st : RunState) (e : Nat × String) :
    (process_one net decode category st e).events.count Ev.sleep
      = st.events.count Ev.sleep + 1 := by
  simp [process_one, List.count_append, download_events_no_sleep]

theorem process_one_hit (net net' : Net) (decode : Decode) (category : String)
    (st : RunState) (e : Nat × String)
    (h : (cache_get st.cache (codepoint_to_twemoji_filename e.1)).isSome) :
    process_one net decode category st e = process_one net' decode category st e
    ∧ (process_one net decode category st e).cache = st.cache
    ∧ (process_one net decode category st e).events = st.events ++ [Ev.sleep] := by
  obtain ⟨b, hb⟩ := Option.isSome_iff_exists.mp h
  refine ⟨?_, ?_, ?_⟩ <;>
    simp [process_one, download_hit net hb, download_hit net' hb]

theorem foldl_process_one_entries (net : Net) (decode : Decode) (category : String) :
    ∀ (es : List (Nat × String)) (st : RunState),
      (es.foldl (process_one net decode category) st).all_entries
        = st.all_entries ++ es.map (entry_of category) := by
  intro es
  induction es with
  | nil => intro st; simp
  | cons e es ih =>
      intro st
      rw [List.foldl_cons, ih, process_one_entries]
      simp

theorem process_category_entries (net : Net) (decode : Decode)
    (st : RunState) (ce : String × List (Nat × String)) :
    (process_category net decode st ce).all_entries
      = st.all_entries ++ ce.2.map (entry_of ce.1) := by
  unfold process_category
  rw [foldl_process_one_entries]

theorem foldl_process_category_entries (net : Net) (decode : Decode) :
    ∀ (ccs : List (String × List (Nat × String))) (st : RunState),
      (ccs.foldl (process_category net decode) st).all_entries
        = st.all_entries ++ (ccs.map (fun ce => ce.2.map (entry_of ce.1))).flatten := by
  intro ccs
  induction ccs with
  | nil => intro st; simp
  | cons ce ccs ih =>
      intro st
      rw [List.foldl_cons, ih, process_category_entries]
      simp

theorem main_run_entries (net : Net) (decode : Decode) (cache0 : CacheMap) :
    (main_run net decode cache0).all_entries = config_entries := by
  show (EMOJI_DATA.foldl (process_category net decode)
      ⟨header_lines, 0, 0, [], cache0, []⟩).all_entries = config_entries
  rw [foldl_process_category_entries]
  rfl

theorem foldl_process_one_sleep_count (net : Net) (decode : Decode) (category : String) :
    ∀ (es : List (Nat × String)) (st : RunState),
      ((es.foldl (process_one net decode category) st).events.count Ev.sleep)
        = st.events.count Ev.sleep + es.length := by
  intro es
  induction es with
  | nil => intro st; simp
  | cons e es ih =>
      intro st
      rw [List.foldl_cons, ih, process_one_sleep_count]
      simp [Nat.add_assoc, Nat.add_comm 1 es.length]

theorem process_category_sleep_count (net : Net) (decode : Decode)
    (st : RunState) (ce : String × List (Nat × String)) :
    ((process_category net decode st ce).events.count Ev.sleep)
      = st.events.count Ev.sleep + ce.2.length := by
  unfold process_category
  rw [foldl_process_one_sleep_count]

theorem foldl_process_category_sleep_count (net : Net) (decode : Decode) :
    ∀ (ccs : List (String × List (Nat × String))) (st : RunState),
      ((ccs.foldl (process_category net decode) st).events.count Ev.sleep)
        = st.events.count Ev.sleep + (ccs.map (fun ce => ce.2.length)).sum := by
  intro ccs
  induction ccs with
  | nil => intro st; simp
  | cons ce ccs ih =>
      intro st
      rw [List.foldl_cons, ih, process_category_sleep_count]
      simp [Nat.add_assoc, Nat.add_comm ce.2.length]

theorem resolve_bitmap_failure (decode : Decode) (r : Option Bytes)
    (h : bytes_falsy r = true
        ∨ ∀ png, r = some png →
            bitmap_falsy (process_twemoji_to_rgb565 decode png) = true) :
    resolve_bitmap decode r = (generate_placeholder 12, 0, 1) := by
  cases r with
  | none => rfl
  | some png =>
      cases hE : png.isEmpty with
      | true => simp [resolve_bitmap, hE]
      | false =>
          rcases h with h | h
          · rw [bytes_falsy] at h
            rw [h] at hE
            exact absurd hE (by simp)
          · have h2 := h png rfl
            cases hP : process_twemoji_to_rgb565 decode png with
            | none => simp [resolve_bitmap, hE, hP]
            | some data =>
                rw [hP, bitmap_falsy] at h2
                simp [resolve_bitmap, hE, hP, h2]

theorem foldl_process_one_warm (net net' : Net) (decode : Decode) (category : String) :
    ∀ (es : List (Nat × String)) (st : RunState),
      (∀ e ∈ es, (cache_get st.cache (codepoint_to_twemoji_filename e.1)).isSome) →
      es.foldl (process_one net decode category) st
          = es.foldl (process_one net' decode category) st
      ∧ (es.foldl (process_one net decode category) st).cache = st.cache := by
  intro es
  induction es with
  | nil => intro st _; exact ⟨rfl, rfl⟩
  | cons e es ih =>
      intro st h
      obtain ⟨heq, hcache, -⟩ :=
        process_one_hit net net' decode category st e (h e (List.mem_cons_self e es))
      have h' : ∀ e' ∈ es,
          (cache_get (process_one net decode category st e).cache
            (codepoint_to_twemoji_filename e'.1)).isSome := by
        intro e' he'
        rw [hcache]
        exact h e' (List.mem_cons_of_mem e he')
      obtain ⟨ihq, ihc⟩ := ih (process_one net decode category st e) h'
      constructor
      · rw [List.foldl_cons, List.foldl_cons, ← heq]
        exact ihq
      · rw [List.foldl_cons, ihc, hcache]

theorem process_category_warm (net net' : Net) (decode : Decode)
    (st : RunState) (ce : String × List (Nat × String))
    (h : ∀ e ∈ ce.2, (cache_get st.cache (codepoint_to_twemoji_filename e.1)).isSome) :
    process_category net decode st ce = process_category net' decode st ce
    ∧ (process_category net decode st ce).cache = st.cache := by
  unfold process_category
  exact foldl_process_one_warm net net' decode ce.1 ce.2 _ h

theorem foldl_process_category_warm (net net' : Net) (decode : Decode) :
    ∀ (ccs : List (String × List (Nat × String))) (st : RunState),
      (∀ ce ∈ ccs, ∀ e ∈ ce.2,
          (cache_get st.cache (codepoint_to_twemoji_filename e.1)).isSome) →
      ccs.foldl (process_category net decode) st
          = ccs.foldl (process_category net' decode) st
      ∧ (ccs.foldl (process_category net decode) st).cache = st.cache := by
  intro ccs
  induction ccs with
  | nil => intro st _; exact ⟨rfl, rfl⟩
  | cons ce ccs ih =>
      intro st h
      obtain ⟨heq, hcache⟩ :=
        process_category_warm net net' decode st ce (h ce (List.mem_cons_self ce ccs))
      have h' : ∀ ce' ∈ ccs, ∀ e ∈ ce'.2,
          (cache_get (process_category net decode st ce).cache
            (codepoint_to_twemoji_filename e.1)).isSome := by
        intro ce' hce' e he
        rw [hcache]
        exact h ce' (List.mem_cons_of_mem ce hce') e he
      obtain ⟨ihq, ihc⟩ := ih (process_category net decode st ce) h'
      constructor
      · rw [List.foldl_cons, List.foldl_cons, ← heq]
        exact ihq
      · rw [List.foldl_cons, ihc, hcache]

/-- C1: for 8-bit channels, `rgb_to_rgb565` returns the packed 16-bit value
`((r >> 3) << 11) | ((g >> 2) << 5) | (b >> 3)` — 5 bits red in the most
significant position, 6 bits green, 5 bits blue, each channel truncated —
and in particular white ↦ 0xFFFF, black ↦ 0x0000, pure red ↦ 0xF800. -/
theorem rgb_to_rgb565_spec (r g b : Nat) (hr : r < 256) (hg : g < 256) (hb : b < 256) :
    rgb_to_rgb565 r g b = ((r >>> 3) <<< 11) ||| ((g >>> 2) <<< 5) ||| (b >>> 3)
    ∧ rgb_to_rgb565 r g b < 65536
    ∧ rgb_to_rgb565 255 255 255 = 0xFFFF
    ∧ rgb_to_rgb565 0 0 0 = 0x0000
    ∧ rgb_to_rgb565 255 0 0 = 0xF800 := by
  refine ⟨?_, rgb565_lt r g b hr hg hb, by decide, by decide, by decide⟩
  unfold rgb_to_rgb565
  rw [and248 r hr, and252 g hg, ← Nat.shiftLeft_add, ← Nat.shiftLeft_add]

/-- C1 witness at `(12, 34, 56)`. -/
theorem rgb_to_rgb565_spec_witness :
    rgb_to_rgb565 12 34 56 = ((12 >>> 3) <<< 11) ||| ((34 >>> 2) <<< 5) ||| (56 >>> 3)
    ∧ rgb_to_rgb565 12 34 56 < 65536 :=
  ⟨(rgb_to_rgb565_spec 12 34 56 (by decide) (by decide) (by decide)).1,
   (rgb_to_rgb565_spec 12 34 56 (by decide) (by decide) (by decide)).2.1⟩

/-- C2 counterexample: identifier `0x1F600` is served from the cache — its
download issues no network event — yet its processing step still performs
the `time.sleep(0.05)` delay (line 1252 runs unconditionally), so the delay
is not performed only between consecutive network fetches. -/
theorem sleep_despite_cache_hit :
    (download_twemoji netNone stGrin.cache 0x1F600).events = []
    ∧ (process_one netNone decodeNone "FACES" stGrin (0x1F600, "grin")).events
        = [Ev.sleep] := by
  exact ⟨rfl, rfl⟩

/-- C2 (amended): the fixed delay is performed once after every identifier
processed — `time.sleep(0.05)` at line 1252 is inside the per-emoji loop and
unconditional — so a full run sleeps exactly `total` times, and an
identifier served from the cache still incurs the delay. -/
theorem sleep_after_every_identifier (net : Net) (decode : Decode) (cache0 : CacheMap) :
    (main_run net decode cache0).events.count Ev.sleep = total
    ∧ ∀ category st e,
        (cache_get st.cache (codepoint_to_twemoji_filename e.1)).isSome →
        (process_one net decode category st e).events = st.events ++ [Ev.sleep] := by
  constructor
  · show ((EMOJI_DATA.foldl (process_category net decode)
        ⟨header_lines, 0, 0, [], cache0, []⟩).events.count Ev.sleep) = total
    rw [foldl_process_category_sleep_count]
    simp [total]
  · intro category st e h
    exact (process_one_hit net net decode category st e h).2.2

/-- C2 witness: a concrete cache-hit identifier still appends exactly one
sleep event. -/
theorem sleep_after_every_identifier_witness :
    (process_one netNone decodeNone "FACES" stGrin (0x1F600, "grin")).events
      = stGrin.events ++ [Ev.sleep] :=
  (sleep_after_every_identifier netNone decodeNone cacheGrin).2
    "FACES" stGrin (0x1F600, "grin") rfl

/-- C4: with identical configuration and identical, fully warmed cache
contents (every configured identifier's file present), the artifact text is
byte-identical across runs — it does not depend on the network at all. -/
theorem artifact_warm_cache_deterministic (cache0 : CacheMap) (net1 net2 : Net)
    (decode : Decode)
    (hwarm : ∀ ce ∈ EMOJI_DATA, ∀ e ∈ ce.2,
        (cache_get cache0 (codepoint_to_twemoji_filename e.1)).isSome) :
    artifact_text net1 decode cache0 = artifact_text net2 decode cache0 := by
  have h := foldl_process_category_warm net1 net2 decode EMOJI_DATA
    ⟨header_lines, 0, 0, [], cache0, []⟩ hwarm
  unfold artifact_text
  simp only [main_run]
  rw [h.1]

/-- C4 witness: over a cache holding bytes for every file name, runs against
an always-failing network and an always-succeeding network emit the same
artifact. -/
theorem artifact_warm_cache_deterministic_witness :
    artifact_text netNone decodeNone cacheFull
      = artifact_text (fun _ => some [1, 2]) decodeNone cacheFull :=
  artifact_warm_cache_deterministic cacheFull netNone (fun _ => some [1, 2]) decodeNone
    (fun _ _ _ _ => rfl)

/-- C5: when the fetch returns no bytes or rasterization returns no bitmap,
the identifier's entry is still appended (with the placeholder bitmap
printed in its `PROGMEM` block), the failure counter increases by exactly
one, and the success counter is unchanged. -/
theorem failure_substitutes_placeholder (net : Net) (decode : Decode)
    (category : String) (st : RunState) (e : Nat × String)
    (h : bytes_falsy (download_twemoji net st.cache e.1).result = true
        ∨ ∀ png, (download_twemoji net st.cache e.1).result = some png →
            bitmap_falsy (process_twemoji_to_rgb565 decode png) = true) :
    (process_one net decode category st e).lines
        = st.lines
          ++ bitmap_lines ("EMOJI_BMP_" ++ shortcode_upper e.2) (generate_placeholder 12)
    ∧ (process_one net decode category st e).all_entries
        = st.all_entries ++ [entry_of category e]
    ∧ (process_one net decode category st e).fail_count = st.fail_count + 1
    ∧ (process_one net decode category st e).success_count = st.success_count := by
  have hr := resolve_bitmap_failure decode _ h
  refine ⟨?_, process_one_entries net decode category st e, ?_, ?_⟩ <;>
    simp [process_one, hr]

/-- C5 witness: with an empty cache and a failing network, `grin` is kept
with a placeholder, the failure counter becomes 1 and the success counter
stays 0. -/
theorem failure_substitutes_placeholder_witness :
    (process_one netNone decodeNone "FACES" stEmpty (0x1F600, "grin")).fail_count
        = stEmpty.fail_count + 1
    ∧ (process_one netNone decodeNone "FACES" stEmpty (0x1F600, "grin")).success_count
        = stEmpty.success_count
    ∧ (process_one netNone decodeNone "FACES" stEmpty (0x1F600, "grin")).all_entries
        = stEmpty.all_entries ++ [entry_of "FACES" (0x1F600, "grin")] :=
  ⟨(failure_substitutes_placeholder netNone decodeNone "FACES" stEmpty
      (0x1F600, "grin") (Or.inl rfl)).2.2.1,
   (failure_substitutes_placeholder netNone decodeNone "FACES" stEmpty
      (0x1F600, "grin") (Or.inl rfl)).2.2.2,
   (failure_substitutes_placeholder netNone decodeNone "FACES" stEmpty
      (0x1F600, "grin") (Or.inl rfl)).2.1⟩

/-- C6: the combined table lists exactly the configured entries in
declaration order (categories in declared order, entries within each
category in declared order, no resorting, no deduplication), the table text
is emitted from that list, and the emitted `EMOJI_COUNT` constant equals
the number of entries in the table. -/
theorem table_in_declaration_order (net : Net) (decode : Decode) (cache0 : CacheMap) :
    (main_run net decode cache0).all_entries = config_entries
    ∧ (∃ pre, (main_run net decode cache0).lines = pre ++ table_lines config_entries)
    ∧ ("const int EMOJI_COUNT = " ++ Nat.repr config_entries.length ++ ";")
        ∈ table_lines config_entries
    ∧ config_entries.length = total := by
  refine ⟨main_run_entries net decode cache0, ?_, ?_, ?_⟩
  · refine ⟨(EMOJI_DATA.foldl (process_category net decode)
        ⟨header_lines, 0, 0, [], cache0, []⟩).lines, ?_⟩
    show (EMOJI_DATA.foldl (process_category net decode)
        ⟨header_lines, 0, 0, [], cache0, []⟩).lines
      ++ table_lines (EMOJI_DATA.foldl (process_category net decode)
        ⟨header_lines, 0, 0, [], cache0, []⟩).all_entries = _
    rw [foldl_process_category_entries]
    simp [config_entries]
  · simp [table_lines]
  · simp [config_entries, total, List.length_flatten, Function.comp_def]

/-- C9: a cache `put` under an identifier's file name followed by `get` on
the same name returns exactly the stored bytes. -/
theorem cache_put_get_roundtrip (c : CacheMap) (codepoint : Nat) (data : Bytes) :
    cache_get (cache_put c (codepoint_to_twemoji_filename codepoint) data)
        (codepoint_to_twemoji_filename codepoint) = some data := by
  simp [cache_get, cache_put]

/-- C10: `generate_placeholder` ignores its `size` argument — every call
returns the same fixed 144-value 12×12 question-mark bitmap in yellow on
black — so its output has `size × size` values exactly when `size = 12`. -/
theorem placeholder_ignores_size (s t : Nat) :
    generate_placeholder s = generate_placeholder t
    ∧ (generate_placeholder s).length = 144
    ∧ (∀ v ∈ generate_placeholder s,
        v = rgb_to_rgb565 255 215 0 ∨ v = rgb_to_rgb565 0 0 0)
    ∧ ((generate_placeholder s).length = s * s ↔ s = 12) := by
  have hs : generate_placeholder s = generate_placeholder 12 := rfl
  have ht : generate_placeholder t = generate_placeholder 12 := rfl
  rw [hs, ht]
  refine ⟨rfl, placeholder_length, ?_, ?_⟩
  · set_option maxRecDepth 4000 in decide
  · rw [placeholder_length]
    constructor
    · intro h
      have h' : s * s = 12 * 12 := by omega
      exact Nat.mul_self_inj.mp h'
    · intro h
      rw [h]

/-- C10 witness: at sizes 7 and 9 the outputs coincide and have 144 values,
and 144 = 7 * 7 fails. -/
theorem placeholder_ignores_size_witness :
    generate_placeholder 7 = generate_placeholder 9
    ∧ (generate_placeholder 7).length = 144
    ∧ ((generate_placeholder 7).length = 7 * 7 ↔ 7 = 12) :=
  ⟨(placeholder_ignores_size 7 9).1, (placeholder_ignores_size 7 9).2.1,
   (placeholder_ignores_size 7 9).2.2.2⟩

/-- C7: under the PIL contract — a decodable payload yields exactly
12 × 12 = 144 pixels with 8-bit channels — every bitmap `main` emits,
whether rasterized or the placeholder fallback, has exactly 144 values,
each within the 16-bit range. -/
theorem emitted_bitmap_wellformed (decode : Decode)
    (hdecode : ∀ png pixels, decode png = some pixels →
        pixels.length = 144 ∧ ∀ p ∈ pixels, p.1 < 256 ∧ p.2.1 < 256 ∧ p.2.2 < 256)
    (fetched : Option Bytes) :
    (resolve_bitmap decode fetched).1.length = 144
    ∧ ∀ v ∈ (resolve_bitmap decode fetched).1, v < 65536 := by
  cases fetched with
  | none => exact ⟨placeholder_length, placeholder_lt⟩
  | some png =>
      cases hE : png.isEmpty with
      | true =>
          have hred : resolve_bitmap decode (some png) = (generate_placeholder 12, 0, 1) := by
            simp [resolve_bitmap, hE]
          rw [hred]
          exact ⟨placeholder_length, placeholder_lt⟩
      | false =>
          cases hdec : decode png with
          | none =>
              have hP : process_twemoji_to_rgb565 decode png = none := by
                simp [process_twemoji_to_rgb565, hdec]
              have hred : resolve_bitmap decode (some png) = (generate_placeholder 12, 0, 1) := by
                simp [resolve_bitmap, hE, hP]
              rw [hred]
              exact ⟨placeholder_length, placeholder_lt⟩
          | some pixels =>
              have hP : process_twemoji_to_rgb565 decode png
                  = some (pixels.map fun p => rgb_to_rgb565 p.1 p.2.1 p.2.2) := by
                simp [process_twemoji_to_rgb565, hdec]
              obtain ⟨hlen, hpix⟩ := hdecode png pixels hdec
              cases hD : (pixels.map fun p => rgb_to_rgb565 p.1 p.2.1 p.2.2).isEmpty with
              | true =>
                  have hred : resolve_bitmap decode (some png)
                      = (generate_placeholder 12, 0, 1) := by
                    simp [resolve_bitmap, hE, hP, hD]
                  rw [hred]
                  exact ⟨placeholder_length, placeholder_lt⟩
              | false =>
                  have hred : resolve_bitmap decode (some png)
                      = (pixels.map fun p => rgb_to_rgb565 p.1 p.2.1 p.2.2, 1, 0) := by
                    simp [resolve_bitmap, hE, hP, hD]
                  rw [hred]
                  constructor
                  · rw [List.length_map, hlen]
                  · intro v hv
                    obtain ⟨p, hp, hpv⟩ := List.mem_map.mp hv
                    obtain ⟨h1, h2, h3⟩ := hpix p hp
                    exact hpv ▸ rgb565_lt p.1 p.2.1 p.2.2 h1 h2 h3

/-- C7 witness: with an undecodable payload oracle the placeholder path is
taken and the emitted bitmap is well-formed. -/
theorem emitted_bitmap_wellformed_witness :
    (resolve_bitmap decodeNone (some [1])).1.length = 144
    ∧ ∀ v ∈ (resolve_bitmap decodeNone (some [1])).1, v < 65536 :=
  emitted_bitmap_wellformed decodeNone (fun _ _ h => by exact absurd h (by simp [decodeNone]))
    (some [1])

/-- C8: `download_twemoji` consults the cache first and returns cached
bytes with no network access on a hit; on a miss with a successful
retrieval it returns the bytes with the cache updated to hold them (the
write happens before the return); on a failed retrieval it returns `None`
after exactly one request — no retry within the run. -/
theorem fetch_cache_policy (net : Net) (cache : CacheMap) (codepoint : Nat) :
    (∀ b, cache_get cache (codepoint_to_twemoji_filename codepoint) = some b →
        download_twemoji net cache codepoint = ⟨some b, cache, []⟩)
    ∧ (cache_get cache (codepoint_to_twemoji_filename codepoint) = none →
        ∀ d, net codepoint = some d →
          download_twemoji net cache codepoint
            = ⟨some d, cache_put cache (codepoint_to_twemoji_filename codepoint) d,
               [Ev.request codepoint]⟩)
    ∧ (cache_get cache (codepoint_to_twemoji_filename codepoint) = none →
        net codepoint = none →
        download_twemoji net cache codepoint = ⟨none, cache, [Ev.request codepoint]⟩) := by
  refine ⟨fun b hb => download_hit net hb, fun hc d hd => ?_, fun hc hn => ?_⟩
  · simp [download_twemoji, hc, hd]
  · simp [download_twemoji, hc, hn]

/-- C8 witness: a hit on a full cache returns the cached bytes untouched
with no request, and a miss with a failing network yields `none` after one
request. -/
theorem fetch_cache_policy_witness :
    download_twemoji netNone cacheFull 5 = ⟨some [0], cacheFull, []⟩
    ∧ download_twemoji netNone (fun _ => none) 5
        = ⟨none, fun _ => none, [Ev.request 5]⟩ :=
  ⟨(fetch_cache_policy netNone cacheFull 5).1 [0] rfl,
   (fetch_cache_policy netNone (fun _ => none) 5).2.2 rfl rfl⟩

set_option maxRecDepth 10000 in
theorem all_codes_count_two : all_codes.count 0x1F5FF = 2 := by decide

set_option maxRecDepth 10000 in
theorem all_names_keys : all_names.map strKey = nameKeys := by decide

set_option maxRecDepth 10000 in
theorem nameKeys_distinct : chkDistinct nameKeys 0 = true := by decide

theorem all_names_nodup : all_names.Nodup :=
  List.Nodup.of_map strKey
    (all_names_keys ▸ (nodup_of_chkDistinct nameKeys 0 nameKeys_distinct).1)

theorem config_entries_names :
    config_entries.map (fun x => x.2.1) = all_names := by
  simp [config_entries, all_names, entry_of, List.map_flatten, List.map_map,
    Function.comp_def]

/-- C3 counterexample: the numeric code `0x1F5FF` occurs twice in the
configuration (as `moyai`, line 597, and `moai`, line 808), so identifiers
are not pairwise unique across the configuration. -/
theorem identifier_uniqueness_fails :
    all_codes.count 0x1F5FF = 2 ∧ ¬ (all_codes.Nodup ∧ all_names.Nodup) := by
  refine ⟨all_codes_count_two, fun hc => ?_⟩
  have hle := List.nodup_iff_count_le_one.mp hc.1 0x1F5FF
  rw [all_codes_count_two] at hle
  omega

/-- C3 (amended): names are pairwise unique across the whole configuration,
but identifiers are not (`0x1F5FF` occurs twice); every configured entry
still yields exactly one Artifact entry: for each configured entry the
Artifact table contains exactly one record carrying its name (and that
record carries the entry's id). -/
theorem names_unique_entries_unique (net : Net) (decode : Decode) (cache0 : CacheMap) :
    all_names.Nodup
    ∧ ¬ all_codes.Nodup
    ∧ ∀ en ∈ config_entries,
        (main_run net decode cache0).all_entries.countP (fun x => x.2.1 == en.2.1) = 1 := by
  refine ⟨all_names_nodup, ?_, ?_⟩
  · intro hn
    have hle := List.nodup_iff_count_le_one.mp hn 0x1F5FF
    rw [all_codes_count_two] at hle
    omega
  · intro en hen
    rw [main_run_entries]
    rw [← count_map_eq_countP (fun x => x.2.1) en.2.1 config_entries]
    rw [config_entries_names]
    apply List.count_eq_one_of_mem all_names_nodup
    have hm := List.mem_map_of_mem (fun x => x.2.1) hen
    rwa [config_entries_names] at hm

set_option maxRecDepth 10000 in
/-- C3 witness: the first configured entry, `grin`, appears exactly once in
the emitted table. -/
theorem names_unique_entries_unique_witness :
    (main_run netNone decodeNone cacheFull).all_entries.countP
        (fun x => x.2.1 == "grin") = 1 :=
  (names_unique_entries_unique netNone decodeNone cacheFull).2.2
    (0x1F600, "grin", "EMOJI_BMP_GRIN", "FACES") (by decide)
